import Mathlib

/-!
# AvantDigitalRead — shallow embedding and verification

This file embeds the AvantDigitalRead Arduino library
(src/AvantDigitalRead.h, src/AvantDigitalRead.cpp) in Lean 4 and proves
properties of the embedding.

Modelling conventions:
  - `unsigned long` values (times, durations) are `Nat`; the C subtraction
    `a - b` on 32-bit unsigned longs is `sub32 a b`, explicit wraparound
    arithmetic modulo 2^32.
  - A `PinCallback` function pointer is modelled as an opaque identifier;
    a null pointer is `none`, a real callback is `some id`. Invoking a
    callback is modelled by emitting an `Invocation` record carrying
    exactly the arguments the C code passes.
  - The hardware collaborators `digitalRead` and `millis` are inputs to the
    step functions: each tick takes the raw sample and the current time as
    parameters.  `pinMode` has no observable effect on the data model and
    is dropped.
  - Each C member function that mutates the object becomes a pure function
    from the old state to the new state, paired with its return value and
    with the lists of delayed callbacks it appended and of invocations it
    made, in order.
-/

namespace AvantDigitalRead

/-- 2^32, the modulus of Arduino `unsigned long` arithmetic. -/
def W32 : Nat := 4294967296

/-- 32-bit unsigned subtraction `a - b`, as the C code computes time deltas. -/
def sub32 (a b : Nat) : Nat := (a % W32 + (W32 - b % W32)) % W32

theorem sub32_self (a : Nat) : sub32 a a = 0 := by
  unfold sub32 W32
  omega

theorem sub32_eq (a b : Nat) (h1 : b ≤ a) (h2 : a < W32) : sub32 a b = a - b := by
  unfold sub32 W32 at *
  omega

/-- Default minimum valid press duration (AvantDigitalRead.h line 8). -/
def DEFAULT_MIN_PRESS_MS : Nat := 50

/-- Default maximum valid press duration (AvantDigitalRead.h line 9). -/
def DEFAULT_MAX_PRESS_MS : Nat := 300

/-- Default maximum interval for double press (AvantDigitalRead.h line 10). -/
def DEFAULT_MAX_INTERVAL_MS : Nat := 300

/-- Default long press detection duration (AvantDigitalRead.h line 11). -/
def DEFAULT_PRESS_DURATION_MS : Nat := 1000

/-- Default whether long press repeats (AvantDigitalRead.h line 12). -/
def DEFAULT_REPEAT_LONG_PRESS : Bool := false

/-- Default debounce time (AvantDigitalRead.h line 13). -/
def DEFAULT_DEBOUNCE_TIME : Nat := 50

/-- Pin state enumeration (AvantDigitalRead.h lines 16-21). -/
inductive PinState where
  | PIN_LOW
  | PIN_HIGH
  | PIN_UNINIT
  | PIN_ERROR
  deriving DecidableEq, Repr

/-- Event type enumeration (AvantDigitalRead.h lines 24-31). -/
inductive EventType where
  | EVENT_CHANGE
  | EVENT_RISING
  | EVENT_FALLING
  | EVENT_SINGLE_PRESS
  | EVENT_DOUBLE_PRESS
  | EVENT_LONG_PRESS
  deriving DecidableEq, Repr

open PinState EventType

/-- The `int` value of a `PinState`, for APIs that return the enum as int. -/
def PinState.toInt : PinState → Int
  | PIN_LOW => 0
  | PIN_HIGH => 1
  | PIN_UNINIT => -1
  | PIN_ERROR => -2

/-- `DelayedCallback` (AvantDigitalRead.h lines 38-47): a scheduled,
not-yet-fired callback. -/
structure DelayedCallback where
  callback : Nat
  pin : Int
  newState : PinState
  oldState : PinState
  event : EventType
  timestamp : Nat
  delayMs : Nat
  executed : Bool
  deriving DecidableEq, Repr

/-- One observable callback invocation: the five arguments the C code passes
to a `PinCallback`, plus the identity of the callback invoked. -/
structure Invocation where
  callback : Nat
  pin : Int
  newState : PinState
  oldState : PinState
  event : EventType
  timestamp : Nat
  deriving DecidableEq, Repr

/-- `PinInfo` (AvantDigitalRead.h lines 50-86): per-pin configuration and
state record. -/
structure PinInfo where
  pin : Int
  mode : Int
  currentState : PinState
  lastState : PinState
  lastDebounceTime : Nat
  debounceTime : Nat
  eventsEnabled : Bool
  onChangeCallback : Option Nat
  onChangeDelay : Nat
  onRisingCallback : Option Nat
  onRisingDelay : Nat
  onFallingCallback : Option Nat
  onFallingDelay : Nat
  onSinglePressCallback : Option Nat
  onSinglePressDelay : Nat
  onDoublePressCallback : Option Nat
  onDoublePressDelay : Nat
  onLongPressCallback : Option Nat
  onLongPressDelay : Nat
  minPressMs : Nat
  maxPressMs : Nat
  maxIntervalMs : Nat
  pressDurationMs : Nat
  repeatLongPress : Bool
  pressStartTime : Nat
  releaseTime : Nat
  lastClickTime : Nat
  clickCount : Nat
  longPressTriggered : Bool
  deriving DecidableEq, Repr

/-- The side output of a piece of processing: delayed callbacks appended
(in order) and callbacks invoked synchronously (in order). -/
abbrev Out := List DelayedCallback × List Invocation

/-- The empty side output. -/
def noOut : Out := ([], [])

/-- Concatenation of side outputs, preserving order. -/
def outApp (a b : Out) : Out := (a.1 ++ b.1, a.2 ++ b.2)

/-- `AvantDigitalRead::triggerCallback` (AvantDigitalRead.cpp lines 24-60):
null callback does nothing; zero delay invokes synchronously; positive delay
appends a `DelayedCallback` with `executed = false`. -/
def triggerCallback (callback : Option Nat) (pin : Int) (newState oldState : PinState)
    (event : EventType) (timestamp delayMs : Nat) : Out :=
  match callback with
  | none => noOut
  | some cb =>
    if delayMs = 0 then
      ([], [⟨cb, pin, newState, oldState, event, timestamp⟩])
    else
      ([⟨cb, pin, newState, oldState, event, timestamp, delayMs, false⟩], [])

/-- `AvantDigitalRead::processDelayedCallbacks` (AvantDigitalRead.cpp lines
63-108): entries with `!executed && currentTime - timestamp >= delayMs` are
moved (in order) to a ready list and removed; every ready entry is then
invoked with `currentTime` as the timestamp argument. -/
def processDelayedCallbacks (dcs : List DelayedCallback) (currentTime : Nat) :
    List DelayedCallback × List Invocation :=
  let isReady : DelayedCallback → Bool :=
    fun cb => !cb.executed && decide (cb.delayMs ≤ sub32 currentTime cb.timestamp)
  let ready := dcs.filter isReady
  let remaining := dcs.filter (fun cb => !(isReady cb))
  (remaining,
   ready.map (fun cb => ⟨cb.callback, cb.pin, cb.newState, cb.oldState, cb.event, currentTime⟩))

/-- The long-press block of `detectButtonGestures` (AvantDigitalRead.cpp
lines 114-126): while the pin is at the pressed level and a long-press
callback is registered, fire `LONG_PRESS` once the hold time reaches
`pressDurationMs`, latched by `longPressTriggered` unless `repeatLongPress`;
otherwise reset the latch. -/
def longPressCheck (p : PinInfo) (currentTime : Nat) : PinInfo × Out :=
  if p.currentState = PIN_LOW ∧ p.onLongPressCallback ≠ none then
    if p.pressDurationMs ≤ sub32 currentTime p.pressStartTime then
      if p.repeatLongPress = true ∨ p.longPressTriggered = false then
        ({ p with longPressTriggered := true },
         triggerCallback p.onLongPressCallback p.pin p.currentState p.currentState
           EVENT_LONG_PRESS currentTime p.onLongPressDelay)
      else (p, noOut)
    else (p, noOut)
  else ({ p with longPressTriggered := false }, noOut)

/-- The click block of `detectButtonGestures` (AvantDigitalRead.cpp lines
129-176): on the released level with a recorded press start, classify the
completed press-release pair by its duration and the click count. -/
def clickCheck (p1 : PinInfo) (currentTime : Nat) : PinInfo × Out :=
  if p1.currentState = PIN_HIGH then
    if 0 < p1.pressStartTime then
      let pressDuration := sub32 currentTime p1.pressStartTime
      let inner : PinInfo × Out :=
        if p1.minPressMs ≤ pressDuration ∧ pressDuration ≤ p1.maxPressMs then
          let inner2 : PinInfo × Out :=
            if p1.clickCount = 2 ∧ p1.onDoublePressCallback ≠ none then
              if sub32 currentTime p1.lastClickTime ≤ p1.maxIntervalMs then
                ({ p1 with clickCount := 0 },
                 triggerCallback p1.onDoublePressCallback p1.pin p1.currentState
                   p1.currentState EVENT_DOUBLE_PRESS currentTime p1.onDoublePressDelay)
              else
                ({ p1 with clickCount := 1 },
                 if p1.onSinglePressCallback ≠ none then
                   triggerCallback p1.onSinglePressCallback p1.pin p1.currentState
                     p1.currentState EVENT_SINGLE_PRESS currentTime p1.onSinglePressDelay
                 else noOut)
            else if p1.clickCount = 1 then
              if p1.onDoublePressCallback = none then
                ({ p1 with clickCount := 0 },
                 if p1.onSinglePressCallback ≠ none then
                   triggerCallback p1.onSinglePressCallback p1.pin p1.currentState
                     p1.currentState EVENT_SINGLE_PRESS currentTime p1.onSinglePressDelay
                 else noOut)
              else (p1, noOut)
            else (p1, noOut)
          ({ inner2.1 with lastClickTime := currentTime }, inner2.2)
        else if p1.maxPressMs < pressDuration then
          ({ p1 with clickCount := 0 }, noOut)
        else (p1, noOut)
      ({ inner.1 with pressStartTime := 0 }, inner.2)
    else (p1, noOut)
  else (p1, noOut)

/-- The single-press-timeout block of `detectButtonGestures`
(AvantDigitalRead.cpp lines 178-189): a lone pending click whose
double-press window has expired fires `SINGLE_PRESS`. -/
def timeoutCheck (p2 : PinInfo) (currentTime : Nat) : PinInfo × Out :=
  if p2.currentState = PIN_HIGH ∧ p2.clickCount = 1 ∧
      p2.onDoublePressCallback ≠ none ∧ p2.pressStartTime = 0 then
    if p2.maxIntervalMs < sub32 currentTime p2.lastClickTime then
      ({ p2 with clickCount := 0 },
       if p2.onSinglePressCallback ≠ none then
         triggerCallback p2.onSinglePressCallback p2.pin p2.currentState p2.currentState
           EVENT_SINGLE_PRESS currentTime p2.onSinglePressDelay
       else noOut)
    else (p2, noOut)
  else (p2, noOut)

/-- `AvantDigitalRead::detectButtonGestures` (AvantDigitalRead.cpp lines
111-190): early return when events are disabled; then the long-press check,
the click / double-press check, and the single-press timeout check, run in
sequence on the record. -/
def detectButtonGestures (p : PinInfo) (currentTime : Nat) : PinInfo × Out :=
  if p.eventsEnabled = false then (p, noOut) else
  let lp := longPressCheck p currentTime
  let ck := clickCheck lp.1 currentTime
  let tmo := timeoutCheck ck.1 currentTime
  (tmo.1, outApp lp.2 (outApp ck.2 tmo.2))

/-- The per-pin debounce / edge-event part of `AvantDigitalRead::update`
(AvantDigitalRead.cpp lines 416-465): raw-change rearms `lastDebounceTime`;
a stable differing sample past the debounce window is accepted, a HIGH→LOW
acceptance records the press start and increments `clickCount`, edge
callbacks fire when enabled; `lastState` is then set to the raw sample. -/
def debouncePhase (p : PinInfo) (raw : PinState) (currentTime : Nat) : PinInfo × Out :=
  let p0 := if raw ≠ p.lastState then { p with lastDebounceTime := currentTime } else p
  let step : PinInfo × Out :=
    if p0.debounceTime < sub32 currentTime p0.lastDebounceTime then
      if raw ≠ p0.currentState then
        let previousState := p0.currentState
        let pA := { p0 with currentState := raw }
        let pB :=
          if pA.currentState = PIN_LOW ∧ previousState = PIN_HIGH then
            { pA with pressStartTime := currentTime, clickCount := pA.clickCount + 1 }
          else pA
        if pB.eventsEnabled = true then
          let c : Out :=
            if pB.onChangeCallback ≠ none then
              triggerCallback pB.onChangeCallback pB.pin pB.currentState previousState
                EVENT_CHANGE currentTime pB.onChangeDelay
            else noOut
          let r : Out :=
            if pB.currentState = PIN_HIGH ∧ previousState = PIN_LOW ∧
                pB.onRisingCallback ≠ none then
              triggerCallback pB.onRisingCallback pB.pin pB.currentState previousState
                EVENT_RISING currentTime pB.onRisingDelay
            else noOut
          let f : Out :=
            if pB.currentState = PIN_LOW ∧ previousState = PIN_HIGH ∧
                pB.onFallingCallback ≠ none then
              triggerCallback pB.onFallingCallback pB.pin pB.currentState previousState
                EVENT_FALLING currentTime pB.onFallingDelay
            else noOut
          (pB, outApp c (outApp r f))
        else (pB, noOut)
      else (p0, noOut)
    else (p0, noOut)
  ({ step.1 with lastState := raw }, step.2)

/-- One full iteration of the per-pin loop body of `update`
(AvantDigitalRead.cpp lines 416-468): debounce and edge events, then
`detectButtonGestures`. -/
def pinTick (p : PinInfo) (raw : PinState) (currentTime : Nat) : PinInfo × Out :=
  let d := debouncePhase p raw currentTime
  let g := detectButtonGestures d.1 currentTime
  (g.1, outApp d.2 g.2)

/-- Iterated `pinTick` over a list of (time, raw sample) ticks, collecting
side outputs in order. -/
def runPin (p : PinInfo) (ticks : List (Nat × PinState)) : PinInfo × Out :=
  match ticks with
  | [] => (p, noOut)
  | (now, raw) :: rest =>
    let d := pinTick p raw now
    let r := runPin d.1 rest
    (r.1, outApp d.2 r.2)

/-- The whole object state: `pinList` and `delayedCallbacks`
(AvantDigitalRead.h lines 90-91). -/
structure SysState where
  pinList : List PinInfo
  delayedCallbacks : List DelayedCallback
  deriving DecidableEq, Repr

/-- The freshly constructed object: both vectors empty. -/
def emptySys : SysState := ⟨[], []⟩

/-- `AvantDigitalRead::findPin` (AvantDigitalRead.cpp lines 14-21): first
record whose `pin` field matches, if any. -/
def findPin (s : SysState) (pin : Int) : Option PinInfo :=
  s.pinList.find? (fun q => decide (q.pin = pin))

/-- Mutation through the pointer `findPin` returns: rewrite the first
matching record, leave the rest unchanged. -/
def replacePin : List PinInfo → Int → (PinInfo → PinInfo) → List PinInfo
  | [], _, _ => []
  | q :: rest, pin, f =>
    if q.pin = pin then f q :: rest else q :: replacePin rest pin f

/-- The `PinInfo` record `addPin` constructs (AvantDigitalRead.cpp lines
203-238), given the initial `digitalRead` sample. -/
def mkNewPin (pin mode : Int) (initialRead : PinState) : PinInfo :=
  { pin := pin
    mode := mode
    currentState := initialRead
    lastState := initialRead
    lastDebounceTime := 0
    debounceTime := DEFAULT_DEBOUNCE_TIME
    eventsEnabled := true
    onChangeCallback := none
    onChangeDelay := 0
    onRisingCallback := none
    onRisingDelay := 0
    onFallingCallback := none
    onFallingDelay := 0
    onSinglePressCallback := none
    onSinglePressDelay := 0
    onDoublePressCallback := none
    onDoublePressDelay := 0
    onLongPressCallback := none
    onLongPressDelay := 0
    minPressMs := DEFAULT_MIN_PRESS_MS
    maxPressMs := DEFAULT_MAX_PRESS_MS
    maxIntervalMs := DEFAULT_MAX_INTERVAL_MS
    pressDurationMs := DEFAULT_PRESS_DURATION_MS
    repeatLongPress := DEFAULT_REPEAT_LONG_PRESS
    pressStartTime := 0
    releaseTime := 0
    lastClickTime := 0
    clickCount := 0
    longPressTriggered := false }

/-- `AvantDigitalRead::addPin` (AvantDigitalRead.cpp lines 193-243): fails if
the pin is already registered, otherwise appends a fresh record whose initial
state is the hardware sample taken at registration. -/
def addPin (s : SysState) (pin mode : Int) (initialRead : PinState) : SysState × Bool :=
  if (findPin s pin).isSome then (s, false)
  else ({ s with pinList := s.pinList ++ [mkNewPin pin mode initialRead] }, true)

/-- First-match erase, as the `removePin` loop does. -/
def removePinList : List PinInfo → Int → List PinInfo × Bool
  | [], _ => ([], false)
  | q :: rest, pin =>
    if q.pin = pin then (rest, true)
    else
      let r := removePinList rest pin
      (q :: r.1, r.2)

/-- `AvantDigitalRead::removePin` (AvantDigitalRead.cpp lines 246-254). -/
def removePin (s : SysState) (pin : Int) : SysState × Bool :=
  let r := removePinList s.pinList pin
  ({ s with pinList := r.1 }, r.2)

/-- `AvantDigitalRead::isInitialized` (AvantDigitalRead.cpp lines 257-259),
named `isInit` here. -/
def isInit (s : SysState) (pin : Int) : Bool :=
  (findPin s pin).isSome

/-- `AvantDigitalRead::getPinMode` (AvantDigitalRead.cpp lines 262-268):
returns `PIN_UNINITIALIZED` (as int, -1) for an unregistered pin. -/
def getPinMode (s : SysState) (pin : Int) : Int :=
  match findPin s pin with
  | none => PinState.toInt PIN_UNINIT
  | some q => q.mode

/-- `AvantDigitalRead::readPin` (AvantDigitalRead.cpp lines 271-277). -/
def readPin (s : SysState) (pin : Int) : PinState :=
  match findPin s pin with
  | none => PIN_UNINIT
  | some q => q.currentState

/-- `AvantDigitalRead::setDebounceTime` (AvantDigitalRead.cpp lines 280-287). -/
def setDebounceTime (s : SysState) (pin : Int) (debounceMs : Nat) : SysState × Bool :=
  match findPin s pin with
  | none => (s, false)
  | some _ =>
    ({ s with pinList := replacePin s.pinList pin (fun q => { q with debounceTime := debounceMs }) },
     true)

/-- `AvantDigitalRead::getDebounceTime` (AvantDigitalRead.cpp lines 290-296):
returns the default value for an unregistered pin. -/
def getDebounceTime (s : SysState) (pin : Int) : Nat :=
  match findPin s pin with
  | none => DEFAULT_DEBOUNCE_TIME
  | some q => q.debounceTime

/-- `AvantDigitalRead::onChange` (AvantDigitalRead.cpp lines 299-307). -/
def onChange (s : SysState) (pin : Int) (callback : Option Nat) (delayMs : Nat) :
    SysState × Bool :=
  match findPin s pin with
  | none => (s, false)
  | some _ =>
    let f : PinInfo → PinInfo :=
      fun q => { q with onChangeCallback := callback, onChangeDelay := delayMs }
    ({ s with pinList := replacePin s.pinList pin f }, true)

/-- `AvantDigitalRead::onRising` (AvantDigitalRead.cpp lines 310-318). -/
def onRising (s : SysState) (pin : Int) (callback : Option Nat) (delayMs : Nat) :
    SysState × Bool :=
  match findPin s pin with
  | none => (s, false)
  | some _ =>
    let f : PinInfo → PinInfo :=
      fun q => { q with onRisingCallback := callback, onRisingDelay := delayMs }
    ({ s with pinList := replacePin s.pinList pin f }, true)

/-- `AvantDigitalRead::onFalling` (AvantDigitalRead.cpp lines 321-329). -/
def onFalling (s : SysState) (pin : Int) (callback : Option Nat) (delayMs : Nat) :
    SysState × Bool :=
  match findPin s pin with
  | none => (s, false)
  | some _ =>
    let f : PinInfo → PinInfo :=
      fun q => { q with onFallingCallback := callback, onFallingDelay := delayMs }
    ({ s with pinList := replacePin s.pinList pin f }, true)

/-- `AvantDigitalRead::onSinglePress` (AvantDigitalRead.cpp lines 332-340). -/
def onSinglePress (s : SysState) (pin : Int) (callback : Option Nat) (delayMs : Nat) :
    SysState × Bool :=
  match findPin s pin with
  | none => (s, false)
  | some _ =>
    let f : PinInfo → PinInfo :=
      fun q => { q with onSinglePressCallback := callback, onSinglePressDelay := delayMs }
    ({ s with pinList := replacePin s.pinList pin f }, true)

/-- `AvantDigitalRead::setClickParameters` (AvantDigitalRead.cpp lines 343-351). -/
def setClickParameters (s : SysState) (pin : Int) (minPressMs maxPressMs : Nat) :
    SysState × Bool :=
  match findPin s pin with
  | none => (s, false)
  | some _ =>
    let f : PinInfo → PinInfo :=
      fun q => { q with minPressMs := minPressMs, maxPressMs := maxPressMs }
    ({ s with pinList := replacePin s.pinList pin f }, true)

/-- `AvantDigitalRead::onDoublePress` (AvantDigitalRead.cpp lines 354-363). -/
def onDoublePress (s : SysState) (pin : Int) (callback : Option Nat)
    (delayMs maxIntervalMs : Nat) : SysState × Bool :=
  match findPin s pin with
  | none => (s, false)
  | some _ =>
    let f : PinInfo → PinInfo :=
      fun q => { q with onDoublePressCallback := callback, onDoublePressDelay := delayMs,
                        maxIntervalMs := maxIntervalMs }
    ({ s with pinList := replacePin s.pinList pin f }, true)

/-- `AvantDigitalRead::onLongPress` (AvantDigitalRead.cpp lines 366-376). -/
def onLongPress (s : SysState) (pin : Int) (callback : Option Nat)
    (delayMs pressDurationMs : Nat) (repeat_ : Bool) : SysState × Bool :=
  match findPin s pin with
  | none => (s, false)
  | some _ =>
    let f : PinInfo → PinInfo :=
      fun q => { q with onLongPressCallback := callback, onLongPressDelay := delayMs,
                        pressDurationMs := pressDurationMs, repeatLongPress := repeat_ }
    ({ s with pinList := replacePin s.pinList pin f }, true)

/-- `AvantDigitalRead::enablePinEvents` (AvantDigitalRead.cpp lines 379-386). -/
def enablePinEvents (s : SysState) (pin : Int) : SysState × Bool :=
  match findPin s pin with
  | none => (s, false)
  | some _ =>
    ({ s with pinList := replacePin s.pinList pin (fun q => { q with eventsEnabled := true }) },
     true)

/-- `AvantDigitalRead::disablePinEvents` (AvantDigitalRead.cpp lines 389-396). -/
def disablePinEvents (s : SysState) (pin : Int) : SysState × Bool :=
  match findPin s pin with
  | none => (s, false)
  | some _ =>
    ({ s with pinList := replacePin s.pinList pin (fun q => { q with eventsEnabled := false }) },
     true)

/-- `AvantDigitalRead::enableAllEvents` (AvantDigitalRead.cpp lines 399-403). -/
def enableAllEvents (s : SysState) : SysState :=
  { s with pinList := s.pinList.map (fun q => { q with eventsEnabled := true }) }

/-- `AvantDigitalRead::disableAllEvents` (AvantDigitalRead.cpp lines 406-410). -/
def disableAllEvents (s : SysState) : SysState :=
  { s with pinList := s.pinList.map (fun q => { q with eventsEnabled := false }) }

/-- The per-pin loop of `update` over the registry, in registry order. -/
def updatePins (ps : List PinInfo) (raw : Int → PinState) (now : Nat) :
    List PinInfo × Out :=
  match ps with
  | [] => ([], noOut)
  | p :: rest =>
    let d := pinTick p (raw p.pin) now
    let r := updatePins rest raw now
    (d.1 :: r.1, outApp d.2 r.2)

/-- `AvantDigitalRead::update` (AvantDigitalRead.cpp lines 413-473): run every
pin's tick at the current time against its raw sample, then drain the
delayed-callback list (including entries appended this very tick).  Returns
the new state and the invocations made, in order. -/
def update (s : SysState) (raw : Int → PinState) (now : Nat) : SysState × List Invocation :=
  let u := updatePins s.pinList raw now
  let d := processDelayedCallbacks (s.delayedCallbacks ++ u.2.1) now
  (⟨u.1, d.1⟩, u.2.2 ++ d.2)

/-- Iterated `update` over a list of (time, raw sampler) ticks. -/
def runUpdates (s : SysState) (ticks : List (Nat × (Int → PinState))) :
    SysState × List Invocation :=
  match ticks with
  | [] => (s, [])
  | (now, raw) :: rest =>
    let u := update s raw now
    let r := runUpdates u.1 rest
    (r.1, u.2 ++ r.2)

/-- A raw sampler that reads the same level on every pin. -/
def constLevel (v : PinState) : Int → PinState := fun _ => v

/-- How many events of a given kind a side output carries, counting both
synchronous invocations and scheduled delayed callbacks. -/
def outEventCount (o : Out) (ev : EventType) : Nat :=
  o.1.countP (fun d => decide (d.event = ev)) + o.2.countP (fun i => decide (i.event = ev))

/-- Recursive rendering of "the raw signal toggles faster than
`debounceTime`": at every tick, the time elapsed since the (possibly just
rearmed) `lastDebounceTime` is within the debounce window. -/
def fastToggleB (p : PinInfo) : List (Nat × PinState) → Bool
  | [] => true
  | (now, raw) :: rest =>
    (decide (sub32 now (if raw ≠ p.lastState then now else p.lastDebounceTime) ≤ p.debounceTime))
      && fastToggleB (pinTick p raw now).1 rest

/-- The pin record produced by registering a pin that reads LOW and then
attaching a long-press callback with zero dispatch delay. -/
def c10pin (pin mode : Int) (c dur : Nat) (rep : Bool) : PinInfo :=
  { mkNewPin pin mode PIN_LOW with
      onLongPressCallback := some c, onLongPressDelay := 0,
      pressDurationMs := dur, repeatLongPress := rep }

/-- A released (HIGH) pin on pin number 3 with a single-press callback (id 1)
and a double-press callback (id 2), both with zero dispatch delay, and the
given click parameters; all other fields as registration leaves them. -/
def dpPin (minP maxP maxI : Nat) : PinInfo :=
  { mkNewPin 3 0 PIN_HIGH with
      onSinglePressCallback := some 1, onDoublePressCallback := some 2,
      minPressMs := minP, maxPressMs := maxP, maxIntervalMs := maxI }

/-- Tick schedule driving two press-release pairs through the default 50 ms
debounce: the press transitions are accepted at `p1` and `p2`, the release
transitions at `r1` and `r2` (each raw change is sampled 51 ms before its
acceptance tick). -/
def dpTrace (p1 r1 p2 r2 : Nat) : List (Nat × PinState) :=
  [(p1 - 51, PIN_LOW), (p1, PIN_LOW), (r1 - 51, PIN_HIGH), (r1, PIN_HIGH),
   (p2 - 51, PIN_LOW), (p2, PIN_LOW), (r2 - 51, PIN_HIGH), (r2, PIN_HIGH)]

/-- Registered pin 3 with single-press callback id 1 and double-press
callback id 2 (default parameters, zero dispatch delays), built through the
public API. -/
def c1ceSys : SysState :=
  (onDoublePress ((onSinglePress (addPin emptySys 3 0 PIN_HIGH).1 3 (some 1) 0).1)
    3 (some 2) 0 300).1

/-- Two full presses of 100 ms and 150 ms: raw LOW from 49, accepted at 100,
raw HIGH from 149, accepted at 200 (first click); raw LOW from 349 (i.e. the
second press starts 149 ms after the first release), accepted at 400, raw
HIGH from 499, accepted at 550. -/
def c1ceTicks : List (Nat × (Int → PinState)) :=
  [(49, constLevel PIN_LOW), (100, constLevel PIN_LOW),
   (149, constLevel PIN_HIGH), (200, constLevel PIN_HIGH),
   (349, constLevel PIN_LOW), (400, constLevel PIN_LOW),
   (499, constLevel PIN_HIGH), (550, constLevel PIN_HIGH)]

/-- Pin 4 with a change callback (id 7, delay 5 ms): a HIGH→LOW transition is
accepted at t = 61 and schedules the delayed callback, then the pin's events
are disabled.  -/
def c2ceSys : SysState :=
  let s1 := (onChange (addPin emptySys 4 0 PIN_HIGH).1 4 (some 7) 5).1
  let u1 := (update s1 (constLevel PIN_LOW) 10).1
  let u2 := (update u1 (constLevel PIN_LOW) 61).1
  (disablePinEvents u2 4).1

/-- A held-down pin (LOW) with long-press callback id 4, press recorded at
100 ms, threshold 1000 ms. -/
def c6pinA : PinInfo :=
  { mkNewPin 3 0 PIN_LOW with
      onLongPressCallback := some 4, pressStartTime := 100, pressDurationMs := 1000 }

/-- `c6pinA` after the long-press latch has been set. -/
def c6pinB : PinInfo :=
  { c6pinA with longPressTriggered := true }

/-- `c6pinB` with repeating long press enabled. -/
def c6pinC : PinInfo :=
  { c6pinB with repeatLongPress := true }

/-- A released pin with a long-press callback and a stale latch. -/
def c6pinD : PinInfo :=
  { mkNewPin 3 0 PIN_HIGH with onLongPressCallback := some 4, longPressTriggered := true }

/-- A released pin with one pending click from 100 ms, single-press callback
id 1 and double-press callback id 2 (default 300 ms window). -/
def c7pin : PinInfo :=
  { mkNewPin 3 0 PIN_HIGH with
      onSinglePressCallback := some 1, onDoublePressCallback := some 2,
      clickCount := 1, lastClickTime := 100 }

/-- A registered pin with events disabled. -/
def c2pin : PinInfo :=
  { mkNewPin 4 0 PIN_HIGH with eventsEnabled := false }

/-- A pin about to accept a LOW→HIGH transition: raw sample has been HIGH
since the last tick, `currentState` still LOW, with all three edge
callbacks registered. -/
def c8pin : PinInfo :=
  { mkNewPin 3 0 PIN_LOW with
      lastState := PIN_HIGH, onChangeCallback := some 1,
      onRisingCallback := some 2, onFallingCallback := some 3 }

/-! ## Helper lemmas -/

theorem outEventCount_noOut (ev : EventType) : outEventCount noOut ev = 0 := by
  simp [outEventCount, noOut]

theorem outEventCount_outApp (a b : Out) (ev : EventType) :
    outEventCount (outApp a b) ev = outEventCount a ev + outEventCount b ev := by
  simp [outEventCount, outApp, List.countP_append]
  omega

theorem outEventCount_triggerCallback (cb : Option Nat) (pin : Int) (ns os : PinState)
    (ev : EventType) (ts d : Nat) (ev' : EventType) :
    outEventCount (triggerCallback cb pin ns os ev ts d) ev' =
      if cb ≠ none ∧ ev = ev' then 1 else 0 := by
  cases cb with
  | none => simp [triggerCallback, outEventCount, noOut]
  | some c =>
    by_cases hd : d = 0 <;> by_cases he : ev = ev' <;>
      simp [triggerCallback, outEventCount, hd, he]

theorem outEventCount_ite (c : Prop) [Decidable c] (a b : Out) (ev : EventType) :
    outEventCount (if c then a else b) ev =
      if c then outEventCount a ev else outEventCount b ev := by
  by_cases h : c <;> simp [h]

/-- The long-press block only touches `longPressTriggered`. -/
theorem longPressCheck_preserves (p : PinInfo) (now : Nat) :
    (longPressCheck p now).1.currentState = p.currentState ∧
    (longPressCheck p now).1.lastState = p.lastState ∧
    (longPressCheck p now).1.lastDebounceTime = p.lastDebounceTime ∧
    (longPressCheck p now).1.debounceTime = p.debounceTime ∧
    (longPressCheck p now).1.eventsEnabled = p.eventsEnabled := by
  unfold longPressCheck
  by_cases h1 : p.currentState = PIN_LOW ∧ p.onLongPressCallback ≠ none <;>
    by_cases h2 : p.pressDurationMs ≤ sub32 now p.pressStartTime <;>
    by_cases h3 : p.repeatLongPress = true ∨ p.longPressTriggered = false <;>
    simp [h1, h2, h3]

/-- The click block only touches `clickCount`, `lastClickTime` and
`pressStartTime`. -/
theorem clickCheck_preserves (p : PinInfo) (now : Nat) :
    (clickCheck p now).1.currentState = p.currentState ∧
    (clickCheck p now).1.lastState = p.lastState ∧
    (clickCheck p now).1.lastDebounceTime = p.lastDebounceTime ∧
    (clickCheck p now).1.debounceTime = p.debounceTime ∧
    (clickCheck p now).1.eventsEnabled = p.eventsEnabled := by
  unfold clickCheck
  by_cases c1 : p.currentState = PIN_HIGH
  · by_cases c2 : 0 < p.pressStartTime
    · by_cases c3 : p.minPressMs ≤ sub32 now p.pressStartTime ∧
          sub32 now p.pressStartTime ≤ p.maxPressMs
      · by_cases c4 : p.clickCount = 2 ∧ p.onDoublePressCallback ≠ none
        · by_cases c5 : sub32 now p.lastClickTime ≤ p.maxIntervalMs <;>
            simp [c1, c2, c3, c4, c5]
        · by_cases c6 : p.clickCount = 1
          · by_cases c7 : p.onDoublePressCallback = none <;>
              simp [c1, c2, c3, c4, c6, c7]
          · simp [c1, c2, c3, c4, c6]
      · by_cases c8 : p.maxPressMs < sub32 now p.pressStartTime <;>
          simp [c1, c2, c3, c8]
    · simp [c1, c2]
  · simp [c1]

/-- The timeout block only touches `clickCount`. -/
theorem timeoutCheck_preserves (p : PinInfo) (now : Nat) :
    (timeoutCheck p now).1.currentState = p.currentState ∧
    (timeoutCheck p now).1.lastState = p.lastState ∧
    (timeoutCheck p now).1.lastDebounceTime = p.lastDebounceTime ∧
    (timeoutCheck p now).1.debounceTime = p.debounceTime ∧
    (timeoutCheck p now).1.eventsEnabled = p.eventsEnabled := by
  unfold timeoutCheck
  by_cases h1 : p.currentState = PIN_HIGH ∧ p.clickCount = 1 ∧
      p.onDoublePressCallback ≠ none ∧ p.pressStartTime = 0 <;>
    by_cases h2 : p.maxIntervalMs < sub32 now p.lastClickTime <;>
    simp [h1, h2]

/-- `detectButtonGestures` only touches the gesture-tracking fields: sampled
state, debounce configuration and the enable flag are untouched. -/
theorem detectButtonGestures_preserves (p : PinInfo) (now : Nat) :
    (detectButtonGestures p now).1.currentState = p.currentState ∧
    (detectButtonGestures p now).1.lastState = p.lastState ∧
    (detectButtonGestures p now).1.lastDebounceTime = p.lastDebounceTime ∧
    (detectButtonGestures p now).1.debounceTime = p.debounceTime ∧
    (detectButtonGestures p now).1.eventsEnabled = p.eventsEnabled := by
  by_cases h : p.eventsEnabled = false
  · simp [detectButtonGestures, h]
  · unfold detectButtonGestures
    rw [if_neg h]
    dsimp only
    obtain ⟨l1, l2, l3, l4, l5⟩ := longPressCheck_preserves p now
    obtain ⟨c1, c2, c3, c4, c5⟩ := clickCheck_preserves (longPressCheck p now).1 now
    obtain ⟨t1, t2, t3, t4, t5⟩ :=
      timeoutCheck_preserves (clickCheck (longPressCheck p now).1 now).1 now
    exact ⟨by rw [t1, c1, l1], by rw [t2, c2, l2], by rw [t3, c3, l3],
           by rw [t4, c4, l4], by rw [t5, c5, l5]⟩

/-- When events are disabled `detectButtonGestures` is the identity and emits
nothing (AvantDigitalRead.cpp line 112). -/
theorem detectButtonGestures_disabled (p : PinInfo) (now : Nat)
    (h : p.eventsEnabled = false) : detectButtonGestures p now = (p, noOut) := by
  unfold detectButtonGestures
  simp [h]

/-- Field-level characterisation of the debounce phase: `lastState` becomes
the raw sample, `lastDebounceTime` rearms on a raw change, `currentState`
changes exactly when the debounce window has elapsed and the sample differs,
and the configuration fields are untouched. -/
theorem debouncePhase_fields (p : PinInfo) (raw : PinState) (now : Nat) :
    (debouncePhase p raw now).1.lastState = raw ∧
    (debouncePhase p raw now).1.lastDebounceTime =
      (if raw ≠ p.lastState then now else p.lastDebounceTime) ∧
    (debouncePhase p raw now).1.currentState =
      (if p.debounceTime < sub32 now (if raw ≠ p.lastState then now else p.lastDebounceTime) ∧
          raw ≠ p.currentState then raw else p.currentState) ∧
    (debouncePhase p raw now).1.debounceTime = p.debounceTime ∧
    (debouncePhase p raw now).1.eventsEnabled = p.eventsEnabled := by
  unfold debouncePhase
  by_cases d1 : raw ≠ p.lastState
  · by_cases d2 : p.debounceTime < sub32 now now
    · by_cases d3 : raw ≠ p.currentState
      · by_cases d4 : raw = PIN_LOW ∧ p.currentState = PIN_HIGH
        · obtain ⟨e1, e2⟩ := d4
          subst e1
          by_cases d5 : p.eventsEnabled = true <;> simp [d1, d2, d3, e2, d5]
        · by_cases d5 : p.eventsEnabled = true <;> simp [d1, d2, d3, d4, d5]
      · simp [d1, d2, d3]
    · simp [d1, d2]
  · by_cases d2 : p.debounceTime < sub32 now p.lastDebounceTime
    · by_cases d3 : raw ≠ p.currentState
      · by_cases d4 : raw = PIN_LOW ∧ p.currentState = PIN_HIGH
        · obtain ⟨e1, e2⟩ := d4
          subst e1
          by_cases d5 : p.eventsEnabled = true <;> simp [d1, d2, d3, e2, d5]
        · by_cases d5 : p.eventsEnabled = true <;> simp [d1, d2, d3, d4, d5]
      · simp [d1, d2, d3]
    · simp [d1, d2]

/-- When events are disabled the debounce phase emits nothing. -/
theorem debouncePhase_out_disabled (p : PinInfo) (raw : PinState) (now : Nat)
    (h : p.eventsEnabled = false) : (debouncePhase p raw now).2 = noOut := by
  unfold debouncePhase
  by_cases d1 : raw ≠ p.lastState
  · by_cases d2 : p.debounceTime < sub32 now now
    · by_cases d3 : raw ≠ p.currentState
      · by_cases d4 : raw = PIN_LOW ∧ p.currentState = PIN_HIGH
        · obtain ⟨e1, e2⟩ := d4
          subst e1
          simp [d1, d2, d3, e2, h]
        · simp [d1, d2, d3, d4, h]
      · simp [d1, d2, d3]
    · simp [d1, d2]
  · by_cases d2 : p.debounceTime < sub32 now p.lastDebounceTime
    · by_cases d3 : raw ≠ p.currentState
      · by_cases d4 : raw = PIN_LOW ∧ p.currentState = PIN_HIGH
        · obtain ⟨e1, e2⟩ := d4
          subst e1
          simp [d1, d2, d3, e2, h]
        · simp [d1, d2, d3, d4, h]
      · simp [d1, d2, d3]
    · simp [d1, d2]

theorem findPin_none_iff (s : SysState) (pin : Int) :
    findPin s pin = none ↔ ∀ q ∈ s.pinList, q.pin ≠ pin := by
  simp [findPin, List.find?_eq_none]

theorem removePinList_id (l : List PinInfo) (pin : Int)
    (h : ∀ q ∈ l, q.pin ≠ pin) : removePinList l pin = (l, false) := by
  induction l with
  | nil => simp [removePinList]
  | cons q rest ih =>
    have hq : q.pin ≠ pin := h q (by simp)
    have hr := ih (fun x hx => h x (by simp [hx]))
    simp [removePinList, hq, hr]

theorem find?_removePinList_nodup (l : List PinInfo) (pin : Int)
    (h : (l.map PinInfo.pin).Nodup) :
    (removePinList l pin).1.find? (fun q => decide (q.pin = pin)) = none := by
  induction l with
  | nil => simp [removePinList]
  | cons q rest ih =>
    rw [List.map_cons, List.nodup_cons] at h
    by_cases hq : q.pin = pin
    · have hrest : ∀ x ∈ rest, ¬ x.pin = pin := by
        intro x hx hxpin
        exact h.1 (by rw [hq, ← hxpin]; exact List.mem_map_of_mem PinInfo.pin hx)
      simp [removePinList, hq, List.find?_eq_none]
      intro x hx
      simpa using hrest x hx
    · simp [removePinList, hq]
      intro x hx
      simpa using List.find?_eq_none.mp (ih h.2) x hx

/-! ## C4 -/

/-- C4: a non-null callback with delay 0 is invoked synchronously with the
detection time as its timestamp; with delay k > 0 a pending entry is stored;
draining the scheduler strictly before `detectedAt + k` invokes nothing and
keeps the entry pending, while draining at any `t` with
`t - detectedAt ≥ k` removes the entry and invokes the callback exactly
once, passing the firing time `t` (not the detection time) as the timestamp
argument. -/
theorem C4_deferred :
    (∀ (c : Nat) (pin : Int) (ns os : PinState) (ev : EventType) (ts : Nat),
      triggerCallback (some c) pin ns os ev ts 0 = ([], [⟨c, pin, ns, os, ev, ts⟩])) ∧
    (∀ (c : Nat) (pin : Int) (ns os : PinState) (ev : EventType) (ts k : Nat), 0 < k →
      triggerCallback (some c) pin ns os ev ts k = ([⟨c, pin, ns, os, ev, ts, k, false⟩], [])) ∧
    (∀ (dc : DelayedCallback) (t : Nat),
      dc.executed = false → dc.timestamp ≤ t → t < W32 →
      (t - dc.timestamp < dc.delayMs → processDelayedCallbacks [dc] t = ([dc], [])) ∧
      (dc.delayMs ≤ t - dc.timestamp →
        processDelayedCallbacks [dc] t =
          ([], [⟨dc.callback, dc.pin, dc.newState, dc.oldState, dc.event, t⟩]))) := by
  refine ⟨?_, ?_, ?_⟩
  · intro c pin ns os ev ts
    simp [triggerCallback]
  · intro c pin ns os ev ts k hk
    simp [triggerCallback, Nat.pos_iff_ne_zero.mp hk]
  · intro dc t hex hts hW
    have hs : sub32 t dc.timestamp = t - dc.timestamp := sub32_eq _ _ hts hW
    constructor
    · intro hlt
      have hn : ¬ dc.delayMs ≤ sub32 t dc.timestamp := by rw [hs]; omega
      simp [processDelayedCallbacks, hex, hn]
    · intro hge
      have hy : dc.delayMs ≤ sub32 t dc.timestamp := by rw [hs]; exact hge
      simp [processDelayedCallbacks, hex, hy]

/-- Witness for C4 at a concrete entry with delay 7, detected at 100:
draining at 106 keeps it pending, draining at 107 fires it with timestamp
107. -/
theorem C4_witness :
    triggerCallback (some 5) 2 PIN_HIGH PIN_LOW EVENT_CHANGE 100 0 =
      ([], [⟨5, 2, PIN_HIGH, PIN_LOW, EVENT_CHANGE, 100⟩]) ∧
    triggerCallback (some 5) 2 PIN_HIGH PIN_LOW EVENT_CHANGE 100 7 =
      ([⟨5, 2, PIN_HIGH, PIN_LOW, EVENT_CHANGE, 100, 7, false⟩], []) ∧
    processDelayedCallbacks [⟨5, 2, PIN_HIGH, PIN_LOW, EVENT_CHANGE, 100, 7, false⟩] 106 =
      ([⟨5, 2, PIN_HIGH, PIN_LOW, EVENT_CHANGE, 100, 7, false⟩], []) ∧
    processDelayedCallbacks [⟨5, 2, PIN_HIGH, PIN_LOW, EVENT_CHANGE, 100, 7, false⟩] 107 =
      ([], [⟨5, 2, PIN_HIGH, PIN_LOW, EVENT_CHANGE, 107⟩]) :=
  ⟨C4_deferred.1 5 2 PIN_HIGH PIN_LOW EVENT_CHANGE 100,
   C4_deferred.2.1 5 2 PIN_HIGH PIN_LOW EVENT_CHANGE 100 7 (by decide),
   (C4_deferred.2.2 ⟨5, 2, PIN_HIGH, PIN_LOW, EVENT_CHANGE, 100, 7, false⟩ 106 rfl
     (by decide) (by decide)).1 (by decide),
   (C4_deferred.2.2 ⟨5, 2, PIN_HIGH, PIN_LOW, EVENT_CHANGE, 100, 7, false⟩ 107 rfl
     (by decide) (by decide)).2 (by decide)⟩

/-! ## C5 -/

/-- C5 (amended): on an unregistered pin every mutating or query operation
returns boolean failure with the state unchanged, `readPin` and `getPinMode`
return the uninitialized sentinel — except `getDebounceTime`, which returns
the plain default debounce time. -/
theorem C5_unregistered (s : SysState) (pin : Int) (v d k1 k2 dur : Nat)
    (cb : Option Nat) (rep : Bool) (h : findPin s pin = none) :
    removePin s pin = (s, false) ∧
    isInit s pin = false ∧
    getPinMode s pin = -1 ∧
    readPin s pin = PIN_UNINIT ∧
    getDebounceTime s pin = DEFAULT_DEBOUNCE_TIME ∧
    setDebounceTime s pin v = (s, false) ∧
    setClickParameters s pin k1 k2 = (s, false) ∧
    onChange s pin cb d = (s, false) ∧
    onRising s pin cb d = (s, false) ∧
    onFalling s pin cb d = (s, false) ∧
    onSinglePress s pin cb d = (s, false) ∧
    onDoublePress s pin cb d k1 = (s, false) ∧
    onLongPress s pin cb d dur rep = (s, false) ∧
    enablePinEvents s pin = (s, false) ∧
    disablePinEvents s pin = (s, false) := by
  have hall : ∀ q ∈ s.pinList, q.pin ≠ pin := (findPin_none_iff s pin).mp h
  refine ⟨?_, ?_, ?_, ?_, ?_, ?_, ?_, ?_, ?_, ?_, ?_, ?_, ?_, ?_, ?_⟩
  · simp [removePin, removePinList_id s.pinList pin hall]
  · simp [isInit, h]
  · simp [getPinMode, h, PinState.toInt]
  · simp [readPin, h]
  · simp [getDebounceTime, h]
  · simp [setDebounceTime, h]
  · simp [setClickParameters, h]
  · simp [onChange, h]
  · simp [onRising, h]
  · simp [onFalling, h]
  · simp [onSinglePress, h]
  · simp [onDoublePress, h]
  · simp [onLongPress, h]
  · simp [enablePinEvents, h]
  · simp [disablePinEvents, h]

/-- Witness for C5 on the empty registry at pin 7. -/
theorem C5_witness :
    removePin emptySys 7 = (emptySys, false) ∧
    isInit emptySys 7 = false ∧
    getPinMode emptySys 7 = -1 ∧
    readPin emptySys 7 = PIN_UNINIT ∧
    getDebounceTime emptySys 7 = DEFAULT_DEBOUNCE_TIME ∧
    setDebounceTime emptySys 7 10 = (emptySys, false) ∧
    setClickParameters emptySys 7 30 40 = (emptySys, false) ∧
    onChange emptySys 7 (some 9) 20 = (emptySys, false) ∧
    onRising emptySys 7 (some 9) 20 = (emptySys, false) ∧
    onFalling emptySys 7 (some 9) 20 = (emptySys, false) ∧
    onSinglePress emptySys 7 (some 9) 20 = (emptySys, false) ∧
    onDoublePress emptySys 7 (some 9) 20 30 = (emptySys, false) ∧
    onLongPress emptySys 7 (some 9) 20 60 true = (emptySys, false) ∧
    enablePinEvents emptySys 7 = (emptySys, false) ∧
    disablePinEvents emptySys 7 = (emptySys, false) :=
  C5_unregistered emptySys 7 10 20 30 40 60 (some 9) true rfl

/-- C5 counterexample: `getDebounceTime` on an unregistered pin returns the
plain default value 50 — neither a boolean failure nor the uninitialized
sentinel — indistinguishable from a registered pin left at its default
configuration, so the operation's unregistered-pin result falls outside the
two claimed failure shapes. -/
theorem C5_counterexample :
    isInit emptySys 7 = false ∧
    getDebounceTime emptySys 7 = 50 ∧
    getDebounceTime (addPin emptySys 7 0 PIN_HIGH).1 7 = 50 := by
  decide

/-! ## C9 -/

/-- C9: `addPin` on an already-registered pin fails and changes nothing;
after `removePin` the pin is no longer found (given the at-most-one-record
invariant); every per-pin configuration setter on an unregistered pin fails
and changes nothing, so no record is ever created implicitly. -/
theorem C9_registry :
    (∀ (s : SysState) (pin mode : Int) (sample : PinState),
      (findPin s pin).isSome = true → addPin s pin mode sample = (s, false)) ∧
    (∀ (s : SysState) (pin : Int), (s.pinList.map PinInfo.pin).Nodup →
      findPin (removePin s pin).1 pin = none) ∧
    (∀ (s : SysState) (pin : Int) (v : Nat), findPin s pin = none →
      setDebounceTime s pin v = (s, false)) ∧
    (∀ (s : SysState) (pin : Int) (a b : Nat), findPin s pin = none →
      setClickParameters s pin a b = (s, false)) ∧
    (∀ (s : SysState) (pin : Int) (cb : Option Nat) (d : Nat), findPin s pin = none →
      onChange s pin cb d = (s, false)) ∧
    (∀ (s : SysState) (pin : Int) (cb : Option Nat) (d : Nat), findPin s pin = none →
      onRising s pin cb d = (s, false)) ∧
    (∀ (s : SysState) (pin : Int) (cb : Option Nat) (d : Nat), findPin s pin = none →
      onFalling s pin cb d = (s, false)) ∧
    (∀ (s : SysState) (pin : Int) (cb : Option Nat) (d : Nat), findPin s pin = none →
      onSinglePress s pin cb d = (s, false)) ∧
    (∀ (s : SysState) (pin : Int) (cb : Option Nat) (d k : Nat), findPin s pin = none →
      onDoublePress s pin cb d k = (s, false)) ∧
    (∀ (s : SysState) (pin : Int) (cb : Option Nat) (d k : Nat) (rep : Bool),
      findPin s pin = none → onLongPress s pin cb d k rep = (s, false)) ∧
    (∀ (s : SysState) (pin : Int), findPin s pin = none →
      enablePinEvents s pin = (s, false)) ∧
    (∀ (s : SysState) (pin : Int), findPin s pin = none →
      disablePinEvents s pin = (s, false)) := by
  refine ⟨?_, ?_, ?_, ?_, ?_, ?_, ?_, ?_, ?_, ?_, ?_, ?_⟩
  · intro s pin mode sample h
    simp [addPin, h]
  · intro s pin h
    simpa [removePin, findPin] using find?_removePinList_nodup s.pinList pin h
  · intro s pin v h
    simp [setDebounceTime, h]
  · intro s pin a b h
    simp [setClickParameters, h]
  · intro s pin cb d h
    simp [onChange, h]
  · intro s pin cb d h
    simp [onRising, h]
  · intro s pin cb d h
    simp [onFalling, h]
  · intro s pin cb d h
    simp [onSinglePress, h]
  · intro s pin cb d k h
    simp [onDoublePress, h]
  · intro s pin cb d k rep h
    simp [onLongPress, h]
  · intro s pin h
    simp [enablePinEvents, h]
  · intro s pin h
    simp [disablePinEvents, h]

/-- Witness for C9: duplicate `addPin` fails, a removed pin is gone, and a
setter after removal fails. -/
theorem C9_witness :
    addPin (addPin emptySys 3 1 PIN_HIGH).1 3 1 PIN_HIGH =
      ((addPin emptySys 3 1 PIN_HIGH).1, false) ∧
    findPin (removePin (addPin emptySys 3 1 PIN_HIGH).1 3).1 3 = none ∧
    setDebounceTime (removePin (addPin emptySys 3 1 PIN_HIGH).1 3).1 3 10 =
      ((removePin (addPin emptySys 3 1 PIN_HIGH).1 3).1, false) :=
  ⟨C9_registry.1 (addPin emptySys 3 1 PIN_HIGH).1 3 1 PIN_HIGH (by decide),
   C9_registry.2.1 (addPin emptySys 3 1 PIN_HIGH).1 3 (by decide),
   C9_registry.2.2.1 (removePin (addPin emptySys 3 1 PIN_HIGH).1 3).1 3 10 (by decide)⟩

/-! ## C10 -/

theorem c10_registration (pin mode : Int) (c dur : Nat) (rep : Bool) :
    (onLongPress (addPin emptySys pin mode PIN_LOW).1 pin (some c) 0 dur rep).1 =
      ⟨[c10pin pin mode c dur rep], []⟩ := by
  simp [addPin, onLongPress, findPin, emptySys, replacePin, mkNewPin, c10pin]

theorem c10_debounce (pin mode : Int) (c dur now : Nat) (rep : Bool) :
    debouncePhase (c10pin pin mode c dur rep) PIN_LOW now =
      (c10pin pin mode c dur rep, noOut) := by
  simp [debouncePhase, c10pin, mkNewPin]

theorem c10_gestures (pin mode : Int) (c dur now : Nat) (rep : Bool)
    (h1 : dur ≤ now) (hnow : sub32 now 0 = now) :
    detectButtonGestures (c10pin pin mode c dur rep) now =
      ({ c10pin pin mode c dur rep with longPressTriggered := true },
       ([], [⟨c, pin, PIN_LOW, PIN_LOW, EVENT_LONG_PRESS, now⟩])) := by
  simp [detectButtonGestures, longPressCheck, clickCheck, timeoutCheck,
        c10pin, mkNewPin, hnow, h1, triggerCallback, outApp, noOut]

/-- C10: register a pin whose hardware level reads LOW, attach a long-press
callback, leave `pressStartTime` at its initial 0; the very first `update`
tick at a time `now ≥ pressDurationMs` fires `LONG_PRESS`, although no
HIGH→LOW press transition was ever accepted. -/
theorem C10_long_press_at_registration (pin mode : Int) (c dur now : Nat) (rep : Bool)
    (h1 : dur ≤ now) (h2 : now < W32) :
    (update (onLongPress (addPin emptySys pin mode PIN_LOW).1 pin (some c) 0 dur rep).1
        (constLevel PIN_LOW) now).2 =
      [⟨c, pin, PIN_LOW, PIN_LOW, EVENT_LONG_PRESS, now⟩] := by
  have hnow : sub32 now 0 = now := by
    rw [sub32_eq now 0 (Nat.zero_le now) h2]
    omega
  rw [c10_registration pin mode c dur rep]
  simp [update, updatePins, pinTick, constLevel, c10_debounce,
        c10_gestures pin mode c dur now rep h1 hnow,
        processDelayedCallbacks, outApp, noOut]

/-- Witness for C10 at pin 5 with the default 1000 ms threshold, first tick
at 1500 ms. -/
theorem C10_witness :
    (update (onLongPress (addPin emptySys 5 0 PIN_LOW).1 5 (some 9) 0 1000 false).1
        (constLevel PIN_LOW) 1500).2 =
      [⟨9, 5, PIN_LOW, PIN_LOW, EVENT_LONG_PRESS, 1500⟩] :=
  C10_long_press_at_registration 5 0 9 1000 1500 false (by decide) (by decide)

/-! ## C6 and C7: per-tick gesture lemmas -/

theorem clickCheck_longPressTriggered (p : PinInfo) (now : Nat) :
    (clickCheck p now).1.longPressTriggered = p.longPressTriggered := by
  unfold clickCheck
  by_cases c1 : p.currentState = PIN_HIGH
  · by_cases c2 : 0 < p.pressStartTime
    · by_cases c3 : p.minPressMs ≤ sub32 now p.pressStartTime ∧
          sub32 now p.pressStartTime ≤ p.maxPressMs
      · by_cases c4 : p.clickCount = 2 ∧ p.onDoublePressCallback ≠ none
        · by_cases c5 : sub32 now p.lastClickTime ≤ p.maxIntervalMs <;>
            simp [c1, c2, c3, c4, c5]
        · by_cases c6 : p.clickCount = 1
          · by_cases c7 : p.onDoublePressCallback = none <;>
              simp [c1, c2, c3, c4, c6, c7]
          · simp [c1, c2, c3, c4, c6]
      · by_cases c8 : p.maxPressMs < sub32 now p.pressStartTime <;>
          simp [c1, c2, c3, c8]
    · simp [c1, c2]
  · simp [c1]

theorem timeoutCheck_longPressTriggered (p : PinInfo) (now : Nat) :
    (timeoutCheck p now).1.longPressTriggered = p.longPressTriggered := by
  unfold timeoutCheck
  by_cases h1 : p.currentState = PIN_HIGH ∧ p.clickCount = 1 ∧
      p.onDoublePressCallback ≠ none ∧ p.pressStartTime = 0 <;>
    by_cases h2 : p.maxIntervalMs < sub32 now p.lastClickTime <;>
    simp [h1, h2]

/-- The long-press block never emits events of other kinds. -/
theorem longPressCheck_events (p : PinInfo) (now : Nat) (ev : EventType)
    (h : ev ≠ EVENT_LONG_PRESS) : outEventCount (longPressCheck p now).2 ev = 0 := by
  unfold longPressCheck
  by_cases h1 : p.currentState = PIN_LOW ∧ p.onLongPressCallback ≠ none <;>
    by_cases h2 : p.pressDurationMs ≤ sub32 now p.pressStartTime <;>
    by_cases h3 : p.repeatLongPress = true ∨ p.longPressTriggered = false <;>
    simp [h1, h2, h3, outEventCount_triggerCallback, outEventCount_noOut, Ne.symm h]

/-- The click block only ever emits `SINGLE_PRESS` or `DOUBLE_PRESS`. -/
theorem clickCheck_events (p : PinInfo) (now : Nat) (ev : EventType)
    (hs : ev ≠ EVENT_SINGLE_PRESS) (hd : ev ≠ EVENT_DOUBLE_PRESS) :
    outEventCount (clickCheck p now).2 ev = 0 := by
  unfold clickCheck
  by_cases c1 : p.currentState = PIN_HIGH
  · by_cases c2 : 0 < p.pressStartTime
    · by_cases c3 : p.minPressMs ≤ sub32 now p.pressStartTime ∧
          sub32 now p.pressStartTime ≤ p.maxPressMs
      · by_cases c4 : p.clickCount = 2 ∧ p.onDoublePressCallback ≠ none
        · by_cases c5 : sub32 now p.lastClickTime ≤ p.maxIntervalMs <;>
            by_cases c9 : p.onSinglePressCallback ≠ none <;>
            simp [c1, c2, c3, c4, c5, c9, outEventCount_triggerCallback,
                  outEventCount_noOut, Ne.symm hs, Ne.symm hd]
        · by_cases c6 : p.clickCount = 1
          · by_cases c7 : p.onDoublePressCallback = none <;>
              by_cases c9 : p.onSinglePressCallback ≠ none <;>
              simp [c1, c2, c3, c4, c6, c7, c9, outEventCount_triggerCallback,
                    outEventCount_noOut, Ne.symm hs]
          · simp [c1, c2, c3, c4, c6, outEventCount_noOut]
      · by_cases c8 : p.maxPressMs < sub32 now p.pressStartTime <;>
          simp [c1, c2, c3, c8, outEventCount_noOut]
    · simp [c1, c2, outEventCount_noOut]
  · simp [c1, outEventCount_noOut]

/-- The timeout block only ever emits `SINGLE_PRESS`. -/
theorem timeoutCheck_events (p : PinInfo) (now : Nat) (ev : EventType)
    (hs : ev ≠ EVENT_SINGLE_PRESS) : outEventCount (timeoutCheck p now).2 ev = 0 := by
  unfold timeoutCheck
  by_cases h1 : p.currentState = PIN_HIGH ∧ p.clickCount = 1 ∧
      p.onDoublePressCallback ≠ none ∧ p.pressStartTime = 0 <;>
    by_cases h2 : p.maxIntervalMs < sub32 now p.lastClickTime <;>
    by_cases h3 : p.onSinglePressCallback ≠ none <;>
    simp [h1, h2, h3, outEventCount_triggerCallback, outEventCount_noOut, Ne.symm hs]

/-- C6: with a long-press callback registered and events enabled, holding
the pin at the pressed level past `pressDurationMs` fires `LONG_PRESS` once
and sets the `longPressTriggered` latch; with the latch set and
`repeatLongPress = false` no further `LONG_PRESS` fires on a tick; with
`repeatLongPress = true` every tick satisfying the hold condition fires;
and whenever the pin is not at the pressed level the latch resets to false
and no `LONG_PRESS` fires. -/
theorem C6_long_press :
    (∀ (p : PinInfo) (now : Nat),
      p.eventsEnabled = true → p.currentState = PIN_LOW → p.onLongPressCallback ≠ none →
      p.pressDurationMs ≤ sub32 now p.pressStartTime → p.longPressTriggered = false →
      outEventCount (detectButtonGestures p now).2 EVENT_LONG_PRESS = 1 ∧
      (detectButtonGestures p now).1.longPressTriggered = true) ∧
    (∀ (p : PinInfo) (now : Nat),
      p.eventsEnabled = true → p.currentState = PIN_LOW → p.onLongPressCallback ≠ none →
      p.repeatLongPress = false → p.longPressTriggered = true →
      outEventCount (detectButtonGestures p now).2 EVENT_LONG_PRESS = 0 ∧
      (detectButtonGestures p now).1.longPressTriggered = true) ∧
    (∀ (p : PinInfo) (now : Nat),
      p.eventsEnabled = true → p.currentState = PIN_LOW → p.onLongPressCallback ≠ none →
      p.repeatLongPress = true → p.pressDurationMs ≤ sub32 now p.pressStartTime →
      outEventCount (detectButtonGestures p now).2 EVENT_LONG_PRESS = 1) ∧
    (∀ (p : PinInfo) (now : Nat),
      p.eventsEnabled = true → p.currentState ≠ PIN_LOW →
      (detectButtonGestures p now).1.longPressTriggered = false ∧
      outEventCount (detectButtonGestures p now).2 EVENT_LONG_PRESS = 0) := by
  refine ⟨?_, ?_, ?_, ?_⟩
  · intro p now he hc hlp hd hl
    have hlpc : longPressCheck p now =
        ({ p with longPressTriggered := true },
         triggerCallback p.onLongPressCallback p.pin p.currentState p.currentState
           EVENT_LONG_PRESS now p.onLongPressDelay) := by
      simp [longPressCheck, hc, hlp, hd, hl]
    have hck : clickCheck { p with longPressTriggered := true } now =
        ({ p with longPressTriggered := true }, noOut) := by
      simp [clickCheck, hc]
    have htm : timeoutCheck { p with longPressTriggered := true } now =
        ({ p with longPressTriggered := true }, noOut) := by
      simp [timeoutCheck, hc]
    constructor
    · rw [detectButtonGestures, if_neg (by simp [he])]
      dsimp only
      rw [hlpc]
      dsimp only
      rw [hck]
      dsimp only
      rw [htm]
      simp [outEventCount_outApp, outEventCount_noOut, outEventCount_triggerCallback, hlp]
    · rw [detectButtonGestures, if_neg (by simp [he])]
      dsimp only
      rw [hlpc]
      dsimp only
      rw [hck]
      dsimp only
      rw [htm]
  · intro p now he hc hlp hr hl
    have hlpc : longPressCheck p now = (p, noOut) := by
      by_cases hd : p.pressDurationMs ≤ sub32 now p.pressStartTime <;>
        simp [longPressCheck, hc, hlp, hd, hr, hl]
    have hck : clickCheck p now = (p, noOut) := by
      simp [clickCheck, hc]
    have htm : timeoutCheck p now = (p, noOut) := by
      simp [timeoutCheck, hc]
    constructor
    · rw [detectButtonGestures, if_neg (by simp [he])]
      dsimp only
      rw [hlpc]
      dsimp only
      rw [hck]
      dsimp only
      rw [htm]
      simp [outEventCount_outApp, outEventCount_noOut]
    · rw [detectButtonGestures, if_neg (by simp [he])]
      dsimp only
      rw [hlpc]
      dsimp only
      rw [hck]
      dsimp only
      rw [htm]
      exact hl
  · intro p now he hc hlp hr hd
    have hlpc : longPressCheck p now =
        ({ p with longPressTriggered := true },
         triggerCallback p.onLongPressCallback p.pin p.currentState p.currentState
           EVENT_LONG_PRESS now p.onLongPressDelay) := by
      simp [longPressCheck, hc, hlp, hd, hr]
    have hck : clickCheck { p with longPressTriggered := true } now =
        ({ p with longPressTriggered := true }, noOut) := by
      simp [clickCheck, hc]
    have htm : timeoutCheck { p with longPressTriggered := true } now =
        ({ p with longPressTriggered := true }, noOut) := by
      simp [timeoutCheck, hc]
    rw [detectButtonGestures, if_neg (by simp [he])]
    dsimp only
    rw [hlpc]
    dsimp only
    rw [hck]
    dsimp only
    rw [htm]
    simp [outEventCount_outApp, outEventCount_noOut, outEventCount_triggerCallback, hlp]
  · intro p now he hc
    have hlpc : longPressCheck p now = ({ p with longPressTriggered := false }, noOut) := by
      simp [longPressCheck, hc]
    constructor
    · rw [detectButtonGestures, if_neg (by simp [he])]
      dsimp only
      rw [hlpc]
      dsimp only
      rw [timeoutCheck_longPressTriggered, clickCheck_longPressTriggered]
    · rw [detectButtonGestures, if_neg (by simp [he])]
      dsimp only
      rw [hlpc]
      dsimp only
      rw [outEventCount_outApp, outEventCount_outApp, outEventCount_noOut,
          clickCheck_events _ _ _ (by simp) (by simp),
          timeoutCheck_events _ _ _ (by simp)]

/-- Witness for C6 at concrete held-down pins: threshold 1000 ms, press
started at 100, tick at 1200 fires once; a tick with the latch set does not
fire; the repeat variant fires anyway; a released pin resets the latch. -/
theorem C6_witness :
    (outEventCount (detectButtonGestures c6pinA 1200).2 EVENT_LONG_PRESS = 1 ∧
     (detectButtonGestures c6pinA 1200).1.longPressTriggered = true) ∧
    (outEventCount (detectButtonGestures c6pinB 1300).2 EVENT_LONG_PRESS = 0 ∧
     (detectButtonGestures c6pinB 1300).1.longPressTriggered = true) ∧
    outEventCount (detectButtonGestures c6pinC 1300).2 EVENT_LONG_PRESS = 1 ∧
    ((detectButtonGestures c6pinD 50).1.longPressTriggered = false ∧
     outEventCount (detectButtonGestures c6pinD 50).2 EVENT_LONG_PRESS = 0) :=
  ⟨C6_long_press.1 c6pinA 1200 rfl rfl (by simp [c6pinA, mkNewPin]) (by decide) rfl,
   C6_long_press.2.1 c6pinB 1300 rfl rfl (by simp [c6pinB, c6pinA, mkNewPin]) rfl rfl,
   C6_long_press.2.2.1 c6pinC 1300 rfl rfl (by simp [c6pinC, c6pinB, c6pinA, mkNewPin])
     rfl (by decide),
   C6_long_press.2.2.2 c6pinD 50 rfl (by simp [c6pinD, mkNewPin])⟩

/-- C7: with one pending valid click (`clickCount = 1`), a double-press
callback registered and no press in progress, no `SINGLE_PRESS` fires while
`now - lastClickTime ≤ maxIntervalMs` and the click stays pending; once
`now - lastClickTime > maxIntervalMs`, `SINGLE_PRESS` fires exactly once if
a single-press callback is registered (zero times otherwise) and
`clickCount` resets to 0. -/
theorem C7_single_press_timeout :
    (∀ (p : PinInfo) (now : Nat),
      p.eventsEnabled = true → p.currentState = PIN_HIGH → p.clickCount = 1 →
      p.onDoublePressCallback ≠ none → p.pressStartTime = 0 →
      sub32 now p.lastClickTime ≤ p.maxIntervalMs →
      outEventCount (detectButtonGestures p now).2 EVENT_SINGLE_PRESS = 0 ∧
      (detectButtonGestures p now).1.clickCount = 1) ∧
    (∀ (p : PinInfo) (now : Nat),
      p.eventsEnabled = true → p.currentState = PIN_HIGH → p.clickCount = 1 →
      p.onDoublePressCallback ≠ none → p.pressStartTime = 0 →
      p.maxIntervalMs < sub32 now p.lastClickTime →
      outEventCount (detectButtonGestures p now).2 EVENT_SINGLE_PRESS =
        (if p.onSinglePressCallback = none then 0 else 1) ∧
      (detectButtonGestures p now).1.clickCount = 0) := by
  constructor
  · intro p now he hc hcc hdp hps hint
    have hlpc : longPressCheck p now = ({ p with longPressTriggered := false }, noOut) := by
      simp [longPressCheck, hc]
    have hck : clickCheck { p with longPressTriggered := false } now =
        ({ p with longPressTriggered := false }, noOut) := by
      simp [clickCheck, hps]
    have htm : timeoutCheck { p with longPressTriggered := false } now =
        ({ p with longPressTriggered := false }, noOut) := by
      simp [timeoutCheck, Nat.not_lt.mpr hint]
    constructor
    · rw [detectButtonGestures, if_neg (by simp [he])]
      dsimp only
      rw [hlpc]
      dsimp only
      rw [hck]
      dsimp only
      rw [htm]
      simp [outEventCount_outApp, outEventCount_noOut]
    · rw [detectButtonGestures, if_neg (by simp [he])]
      dsimp only
      rw [hlpc]
      dsimp only
      rw [hck]
      dsimp only
      rw [htm]
      exact hcc
  · intro p now he hc hcc hdp hps hint
    have hlpc : longPressCheck p now = ({ p with longPressTriggered := false }, noOut) := by
      simp [longPressCheck, hc]
    have hck : clickCheck { p with longPressTriggered := false } now =
        ({ p with longPressTriggered := false }, noOut) := by
      simp [clickCheck, hps]
    have htm : timeoutCheck { p with longPressTriggered := false } now =
        ({ p with longPressTriggered := false, clickCount := 0 },
         if p.onSinglePressCallback ≠ none then
           triggerCallback p.onSinglePressCallback p.pin p.currentState p.currentState
             EVENT_SINGLE_PRESS now p.onSinglePressDelay
         else noOut) := by
      simp [timeoutCheck, hc, hcc, hdp, hps, hint]
    constructor
    · rw [detectButtonGestures, if_neg (by simp [he])]
      dsimp only
      rw [hlpc]
      dsimp only
      rw [hck]
      dsimp only
      rw [htm]
      by_cases hsp : p.onSinglePressCallback = none <;>
        simp [outEventCount_outApp, outEventCount_noOut, outEventCount_ite,
              outEventCount_triggerCallback, hsp]
    · rw [detectButtonGestures, if_neg (by simp [he])]
      dsimp only
      rw [hlpc]
      dsimp only
      rw [hck]
      dsimp only
      rw [htm]

/-- Witness for C7: `c7pin` has a pending click from time 100 with a 300 ms
window: at 400 nothing fires and the click stays pending, at 401 exactly one
`SINGLE_PRESS` fires and the count resets. -/
theorem C7_witness :
    (outEventCount (detectButtonGestures c7pin 400).2 EVENT_SINGLE_PRESS = 0 ∧
     (detectButtonGestures c7pin 400).1.clickCount = 1) ∧
    (outEventCount (detectButtonGestures c7pin 401).2 EVENT_SINGLE_PRESS =
       (if c7pin.onSinglePressCallback = none then 0 else 1) ∧
     (detectButtonGestures c7pin 401).1.clickCount = 0) :=
  ⟨C7_single_press_timeout.1 c7pin 400 rfl rfl rfl (by simp [c7pin, mkNewPin]) rfl
     (by decide),
   C7_single_press_timeout.2 c7pin 401 rfl rfl rfl (by simp [c7pin, mkNewPin]) rfl
     (by decide)⟩

/-! ## C2 -/

/-- C2 (amended): when a pin's `eventsEnabled` is false, its per-tick
processing raises no callback at all — nothing is invoked synchronously and
nothing is newly scheduled — while debouncing and state tracking still run:
`currentState` still follows the debounce rule and `lastState` still tracks
the raw sample.  (Delayed callbacks scheduled on earlier ticks are outside
this per-pin processing and may still fire; see the counterexample.) -/
theorem C2_events_disabled (p : PinInfo) (raw : PinState) (now : Nat)
    (h : p.eventsEnabled = false) :
    (pinTick p raw now).2 = noOut ∧
    (pinTick p raw now).1 = (debouncePhase p raw now).1 ∧
    (pinTick p raw now).1.currentState =
      (if p.debounceTime < sub32 now (if raw ≠ p.lastState then now else p.lastDebounceTime) ∧
          raw ≠ p.currentState then raw else p.currentState) ∧
    (pinTick p raw now).1.lastState = raw := by
  have hde : (debouncePhase p raw now).1.eventsEnabled = p.eventsEnabled :=
    (debouncePhase_fields p raw now).2.2.2.2
  have hgd : detectButtonGestures (debouncePhase p raw now).1 now =
      ((debouncePhase p raw now).1, noOut) :=
    detectButtonGestures_disabled _ _ (by rw [hde, h])
  have hdo : (debouncePhase p raw now).2 = noOut := debouncePhase_out_disabled p raw now h
  refine ⟨?_, ?_, ?_, ?_⟩
  · rw [pinTick]
    dsimp only
    rw [hgd, hdo]
    simp [outApp, noOut]
  · rw [pinTick]
    dsimp only
    rw [hgd]
  · rw [pinTick]
    dsimp only
    rw [hgd]
    exact (debouncePhase_fields p raw now).2.2.1
  · rw [pinTick]
    dsimp only
    rw [hgd]
    exact (debouncePhase_fields p raw now).1

/-- Witness for C2: a disabled pin sampled LOW at tick 10 emits nothing but
still tracks state. -/
theorem C2_witness :
    (pinTick c2pin PIN_LOW 10).2 = noOut ∧
    (pinTick c2pin PIN_LOW 10).1 = (debouncePhase c2pin PIN_LOW 10).1 ∧
    (pinTick c2pin PIN_LOW 10).1.currentState =
      (if c2pin.debounceTime <
          sub32 10 (if (PIN_LOW : PinState) ≠ c2pin.lastState then 10
                    else c2pin.lastDebounceTime) ∧
          (PIN_LOW : PinState) ≠ c2pin.currentState then PIN_LOW
       else c2pin.currentState) ∧
    (pinTick c2pin PIN_LOW 10).1.lastState = PIN_LOW :=
  C2_events_disabled c2pin PIN_LOW 10 rfl

/-- C2 counterexample for the claim as stated: pin 4's change callback
(delay 5 ms) is scheduled by an accepted transition at t = 61 while events
are enabled; the pin's events are then disabled, yet the `update` tick at
t = 70 still invokes that callback for pin 4 — so "no callback of any event
kind is invoked for that pin during that tick" is false; only the *raising*
of new callbacks is gated by `eventsEnabled`. -/
theorem C2_counterexample :
    (findPin c2ceSys 4).map PinInfo.eventsEnabled = some false ∧
    (update c2ceSys (constLevel PIN_LOW) 70).2 =
      [⟨7, 4, PIN_LOW, PIN_HIGH, EVENT_CHANGE, 70⟩] := by
  decide

/-! ## C8 -/

/-- Output of the debounce phase on an accepted transition: the CHANGE,
RISING and FALLING triggers of AvantDigitalRead.cpp lines 441-460, in
order, gated by `eventsEnabled`. -/
theorem debouncePhase_accept_out (p : PinInfo) (now : Nat)
    (ht : p.debounceTime < sub32 now p.lastDebounceTime)
    (hcur : p.lastState ≠ p.currentState) :
    (debouncePhase p p.lastState now).2 =
      (if p.eventsEnabled = true then
        outApp
          (if p.onChangeCallback ≠ none then
            triggerCallback p.onChangeCallback p.pin p.lastState p.currentState
              EVENT_CHANGE now p.onChangeDelay
          else noOut)
          (outApp
            (if p.lastState = PIN_HIGH ∧ p.currentState = PIN_LOW ∧
                p.onRisingCallback ≠ none then
              triggerCallback p.onRisingCallback p.pin p.lastState p.currentState
                EVENT_RISING now p.onRisingDelay
            else noOut)
            (if p.lastState = PIN_LOW ∧ p.currentState = PIN_HIGH ∧
                p.onFallingCallback ≠ none then
              triggerCallback p.onFallingCallback p.pin p.lastState p.currentState
                EVENT_FALLING now p.onFallingDelay
            else noOut))
      else noOut) := by
  by_cases hpress : p.lastState = PIN_LOW ∧ p.currentState = PIN_HIGH <;>
    by_cases he : p.eventsEnabled = true <;>
    simp [debouncePhase, ht, hcur, hpress, he]

/-- C8: on every accepted transition, `CHANGE` fires iff a change callback
is registered and events are enabled; `RISING` fires iff the transition is
LOW→HIGH with a rising callback registered and events enabled; `FALLING`
fires iff the transition is HIGH→LOW with a falling callback registered and
events enabled; `RISING` and `FALLING` never both fire for the same
accepted transition. -/
theorem C8_edge_events (p : PinInfo) (raw : PinState) (now : Nat)
    (hls : raw = p.lastState) (ht : p.debounceTime < sub32 now p.lastDebounceTime)
    (hcur : raw ≠ p.currentState) :
    outEventCount (debouncePhase p raw now).2 EVENT_CHANGE =
      (if p.eventsEnabled = true ∧ p.onChangeCallback ≠ none then 1 else 0) ∧
    outEventCount (debouncePhase p raw now).2 EVENT_RISING =
      (if p.eventsEnabled = true ∧ raw = PIN_HIGH ∧ p.currentState = PIN_LOW ∧
          p.onRisingCallback ≠ none then 1 else 0) ∧
    outEventCount (debouncePhase p raw now).2 EVENT_FALLING =
      (if p.eventsEnabled = true ∧ raw = PIN_LOW ∧ p.currentState = PIN_HIGH ∧
          p.onFallingCallback ≠ none then 1 else 0) ∧
    (outEventCount (debouncePhase p raw now).2 EVENT_RISING = 0 ∨
     outEventCount (debouncePhase p raw now).2 EVENT_FALLING = 0) := by
  subst hls
  rw [debouncePhase_accept_out p now ht hcur]
  by_cases he : p.eventsEnabled = true
  · refine ⟨?_, ?_, ?_, ?_⟩
    · by_cases hch : p.onChangeCallback ≠ none <;>
        simp [outEventCount_outApp, outEventCount_ite, outEventCount_triggerCallback,
              outEventCount_noOut, he, hch]
    · by_cases hrc : p.lastState = PIN_HIGH ∧ p.currentState = PIN_LOW ∧
          p.onRisingCallback ≠ none <;>
        simp [outEventCount_outApp, outEventCount_ite, outEventCount_triggerCallback,
              outEventCount_noOut, he, hrc]
    · by_cases hfc : p.lastState = PIN_LOW ∧ p.currentState = PIN_HIGH ∧
          p.onFallingCallback ≠ none <;>
        simp [outEventCount_outApp, outEventCount_ite, outEventCount_triggerCallback,
              outEventCount_noOut, he, hfc]
    · by_cases hrc : p.lastState = PIN_HIGH ∧ p.currentState = PIN_LOW ∧
          p.onRisingCallback ≠ none
      · right
        obtain ⟨e1, e2, e3⟩ := hrc
        simp [outEventCount_outApp, outEventCount_ite, outEventCount_triggerCallback,
              outEventCount_noOut, e1]
      · left
        simp [outEventCount_outApp, outEventCount_ite, outEventCount_triggerCallback,
              outEventCount_noOut, hrc]
  · simp [outEventCount_noOut, he]

/-- Witness for C8 on `c8pin`: a LOW→HIGH transition accepted at t = 100
fires CHANGE and RISING once each, FALLING not at all. -/
theorem C8_witness :
    outEventCount (debouncePhase c8pin PIN_HIGH 100).2 EVENT_CHANGE =
      (if c8pin.eventsEnabled = true ∧ c8pin.onChangeCallback ≠ none then 1 else 0) ∧
    outEventCount (debouncePhase c8pin PIN_HIGH 100).2 EVENT_RISING =
      (if c8pin.eventsEnabled = true ∧ (PIN_HIGH : PinState) = PIN_HIGH ∧
          c8pin.currentState = PIN_LOW ∧ c8pin.onRisingCallback ≠ none then 1 else 0) ∧
    outEventCount (debouncePhase c8pin PIN_HIGH 100).2 EVENT_FALLING =
      (if c8pin.eventsEnabled = true ∧ (PIN_HIGH : PinState) = PIN_LOW ∧
          c8pin.currentState = PIN_HIGH ∧ c8pin.onFallingCallback ≠ none then 1 else 0) ∧
    (outEventCount (debouncePhase c8pin PIN_HIGH 100).2 EVENT_RISING = 0 ∨
     outEventCount (debouncePhase c8pin PIN_HIGH 100).2 EVENT_FALLING = 0) :=
  C8_edge_events c8pin PIN_HIGH 100 rfl (by decide) (by decide)

/-! ## C3 -/

/-- A tick whose (possibly rearmed) debounce window has not yet elapsed
leaves `currentState` unchanged. -/
theorem slow_tick_currentState (p : PinInfo) (raw : PinState) (now : Nat)
    (h : sub32 now (if raw ≠ p.lastState then now else p.lastDebounceTime) ≤ p.debounceTime) :
    (pinTick p raw now).1.currentState = p.currentState := by
  rw [pinTick]
  dsimp only
  rw [(detectButtonGestures_preserves _ _).1, (debouncePhase_fields p raw now).2.2.1]
  have hn : ¬ (p.debounceTime <
      sub32 now (if raw ≠ p.lastState then now else p.lastDebounceTime) ∧
      raw ≠ p.currentState) := by
    intro hx
    omega
  rw [if_neg hn]

/-- C3: a raw signal that toggles faster than `debounceTime` (so that on
every tick the time since the rearmed `lastDebounceTime` is within the
window) never changes `currentState`; a raw toggle observed at `t0` and held
stable produces no transition at `t0` and exactly one accepted transition at
`t0 + debounceTime + 1`; and once `currentState` equals the raw level no
further tick with that raw level ever changes it again. -/
theorem C3_debounce :
    (∀ (p : PinInfo) (ticks : List (Nat × PinState)),
      fastToggleB p ticks = true → (runPin p ticks).1.currentState = p.currentState) ∧
    (∀ (p : PinInfo) (r : PinState) (t0 : Nat),
      p.lastState = p.currentState → r ≠ p.currentState →
      t0 + p.debounceTime + 1 < W32 →
      (pinTick p r t0).1.currentState = p.currentState ∧
      (pinTick (pinTick p r t0).1 r (t0 + p.debounceTime + 1)).1.currentState = r) ∧
    (∀ (q : PinInfo) (r : PinState) (t : Nat),
      q.currentState = r → (pinTick q r t).1.currentState = r) := by
  refine ⟨?_, ?_, ?_⟩
  · intro p ticks
    induction ticks generalizing p with
    | nil =>
      intro _
      rfl
    | cons tk rest ih =>
      obtain ⟨now, raw⟩ := tk
      intro h
      rw [fastToggleB] at h
      rw [Bool.and_eq_true, decide_eq_true_eq] at h
      rw [runPin]
      dsimp only
      rw [ih _ h.2]
      exact slow_tick_currentState p raw now h.1
  · intro p r t0 hls hr hW
    have hne : r ≠ p.lastState := by rw [hls]; exact hr
    have h1 : (pinTick p r t0).1.currentState = p.currentState := by
      apply slow_tick_currentState
      rw [if_pos hne, sub32_self]
      exact Nat.zero_le _
    have e_ls : (pinTick p r t0).1.lastState = r := by
      rw [pinTick]
      dsimp only
      rw [(detectButtonGestures_preserves _ _).2.1, (debouncePhase_fields p r t0).1]
    have e_ldt : (pinTick p r t0).1.lastDebounceTime = t0 := by
      rw [pinTick]
      dsimp only
      rw [(detectButtonGestures_preserves _ _).2.2.1, (debouncePhase_fields p r t0).2.1,
          if_pos hne]
    have e_db : (pinTick p r t0).1.debounceTime = p.debounceTime := by
      rw [pinTick]
      dsimp only
      rw [(detectButtonGestures_preserves _ _).2.2.2.1,
          (debouncePhase_fields p r t0).2.2.2.1]
    refine ⟨h1, ?_⟩
    rw [pinTick]
    dsimp only
    rw [(detectButtonGestures_preserves _ _).1,
        (debouncePhase_fields _ r _).2.2.1]
    have hne2 : ¬ (r ≠ (pinTick p r t0).1.lastState) := by
      rw [e_ls]
      simp
    rw [if_neg hne2, e_ldt, e_db, h1]
    have harith : sub32 (t0 + p.debounceTime + 1) t0 = p.debounceTime + 1 := by
      rw [sub32_eq _ _ (by omega) hW]
      omega
    rw [harith, if_pos ⟨by omega, hr⟩]
  · intro q r t h
    rw [pinTick]
    dsimp only
    rw [(detectButtonGestures_preserves _ _).1, (debouncePhase_fields q r t).2.2.1]
    have hn : ¬ (q.debounceTime <
        sub32 t (if r ≠ q.lastState then t else q.lastDebounceTime) ∧
        r ≠ q.currentState) := by
      intro hx
      exact hx.2 h.symm
    rw [if_neg hn]
    exact h

/-- Witness for C3: a signal toggling every 10 ms against the default 50 ms
debounce changes nothing; a toggle to LOW at t = 7 on a stable HIGH pin is
not accepted at 7 and is accepted at 7 + 50 + 1 = 58; a stable accepted
level never re-fires. -/
theorem C3_witness :
    (runPin (mkNewPin 3 0 PIN_HIGH)
        [(10, PIN_LOW), (20, PIN_HIGH), (30, PIN_LOW), (40, PIN_HIGH)]).1.currentState =
      (mkNewPin 3 0 PIN_HIGH).currentState ∧
    ((pinTick (mkNewPin 3 0 PIN_HIGH) PIN_LOW 7).1.currentState =
        (mkNewPin 3 0 PIN_HIGH).currentState ∧
      (pinTick (pinTick (mkNewPin 3 0 PIN_HIGH) PIN_LOW 7).1 PIN_LOW
          (7 + (mkNewPin 3 0 PIN_HIGH).debounceTime + 1)).1.currentState = PIN_LOW) ∧
    (pinTick (mkNewPin 3 0 PIN_LOW) PIN_LOW 99).1.currentState = PIN_LOW :=
  ⟨C3_debounce.1 (mkNewPin 3 0 PIN_HIGH)
      [(10, PIN_LOW), (20, PIN_HIGH), (30, PIN_LOW), (40, PIN_HIGH)] (by decide),
   C3_debounce.2.1 (mkNewPin 3 0 PIN_HIGH) PIN_LOW 7 rfl (by decide) (by decide),
   C3_debounce.2.2 (mkNewPin 3 0 PIN_LOW) PIN_LOW 99 rfl⟩

/-! ## C1 counterexample -/

/-- C1 counterexample for the claim as stated: both presses last 100 ms and
150 ms (inside the default [50, 300] window) and the second press *starts*
149 ms after the first release (inside the default 300 ms `maxIntervalMs`),
yet because the code compares the second *release* time (550) against the
first release (200) — 350 > 300 — it fires one `SINGLE_PRESS` and zero
`DOUBLE_PRESS`, not one `DOUBLE_PRESS` and zero `SINGLE_PRESS`. -/
theorem C1_counterexample :
    (runUpdates c1ceSys c1ceTicks).2 =
      [⟨1, 3, PIN_HIGH, PIN_HIGH, EVENT_SINGLE_PRESS, 550⟩] := by
  decide

/-! ## C1 -/

set_option maxHeartbeats 2000000 in
/-- C1 (amended): for a pin with single-press and double-press callbacks
registered and events enabled (default 50 ms debounce), two presses each
within the valid duration window, where the second press's *release* occurs
within `maxIntervalMs` of the first press's release, produce exactly one
`DOUBLE_PRESS` and zero `SINGLE_PRESS` events — indeed the run's only output
is the one `DOUBLE_PRESS` invocation.  (The claim's original wording —
second press *starting* within the window — is refuted by
`C1_counterexample`: the code compares the second release time against the
first release.) -/
theorem C1_double_press (minP maxP maxI p1 r1 p2 r2 : Nat)
    (h1 : 51 ≤ p1) (h2 : p1 + 51 ≤ r1) (h3 : minP ≤ r1 - p1) (h4 : r1 - p1 ≤ maxP)
    (h5 : r1 + 51 ≤ p2) (h6 : p2 + 51 ≤ r2) (h7 : minP ≤ r2 - p2) (h8 : r2 - p2 ≤ maxP)
    (h9 : r2 ≤ r1 + maxI) (h10 : r2 < W32) :
    (runPin (dpPin minP maxP maxI) (dpTrace p1 r1 p2 r2)).2 =
      ([], [⟨2, 3, PIN_HIGH, PIN_HIGH, EVENT_DOUBLE_PRESS, r2⟩]) := by
  have s1 : sub32 p1 (p1 - 51) = 51 := by rw [sub32_eq _ _ (by omega) (by omega)]; omega
  have s2 : sub32 r1 (r1 - 51) = 51 := by rw [sub32_eq _ _ (by omega) (by omega)]; omega
  have s3 : sub32 p2 (p2 - 51) = 51 := by rw [sub32_eq _ _ (by omega) (by omega)]; omega
  have s4 : sub32 r2 (r2 - 51) = 51 := by rw [sub32_eq _ _ (by omega) (by omega)]; omega
  have s5 : sub32 r1 p1 = r1 - p1 := by rw [sub32_eq _ _ (by omega) (by omega)]
  have s6 : sub32 r2 p2 = r2 - p2 := by rw [sub32_eq _ _ (by omega) (by omega)]
  have s7 : sub32 r2 r1 = r2 - r1 := by rw [sub32_eq _ _ (by omega) (by omega)]
  have s8 : sub32 (p2 - 51) r1 = p2 - 51 - r1 := by
    rw [sub32_eq _ _ (by omega) (by omega)]
  have n5 : ¬ (maxI < p2 - 51 - r1) := by omega
  have c7 : r2 - r1 ≤ maxI := by omega
  have op1 : 0 < p1 := by omega
  have op2 : 0 < p2 := by omega
  have e1 : pinTick (dpPin minP maxP maxI) PIN_LOW (p1 - 51) =
      ({ dpPin minP maxP maxI with
          lastDebounceTime := p1 - 51, lastState := PIN_LOW }, noOut) := by
    simp [pinTick, debouncePhase, detectButtonGestures, longPressCheck, clickCheck,
          timeoutCheck, dpPin, mkNewPin, sub32_self, noOut, outApp,
          DEFAULT_DEBOUNCE_TIME, DEFAULT_MIN_PRESS_MS, DEFAULT_MAX_PRESS_MS,
          DEFAULT_MAX_INTERVAL_MS, DEFAULT_PRESS_DURATION_MS, DEFAULT_REPEAT_LONG_PRESS]
  have e2 : pinTick
      ({ dpPin minP maxP maxI with
          lastDebounceTime := p1 - 51, lastState := PIN_LOW }) PIN_LOW p1 =
      ({ dpPin minP maxP maxI with
          lastDebounceTime := p1 - 51, lastState := PIN_LOW, currentState := PIN_LOW,
          pressStartTime := p1, clickCount := 1 }, noOut) := by
    simp [pinTick, debouncePhase, detectButtonGestures, longPressCheck, clickCheck,
          timeoutCheck, s1, dpPin, mkNewPin, sub32_self, noOut, outApp,
          DEFAULT_DEBOUNCE_TIME, DEFAULT_MIN_PRESS_MS, DEFAULT_MAX_PRESS_MS,
          DEFAULT_MAX_INTERVAL_MS, DEFAULT_PRESS_DURATION_MS, DEFAULT_REPEAT_LONG_PRESS]
  have e3 : pinTick
      ({ dpPin minP maxP maxI with
          lastDebounceTime := p1 - 51, lastState := PIN_LOW, currentState := PIN_LOW,
          pressStartTime := p1, clickCount := 1 }) PIN_HIGH (r1 - 51) =
      ({ dpPin minP maxP maxI with
          lastDebounceTime := r1 - 51, lastState := PIN_HIGH, currentState := PIN_LOW,
          pressStartTime := p1, clickCount := 1 }, noOut) := by
    simp [pinTick, debouncePhase, detectButtonGestures, longPressCheck, clickCheck,
          timeoutCheck, dpPin, mkNewPin, sub32_self, noOut, outApp,
          DEFAULT_DEBOUNCE_TIME, DEFAULT_MIN_PRESS_MS, DEFAULT_MAX_PRESS_MS,
          DEFAULT_MAX_INTERVAL_MS, DEFAULT_PRESS_DURATION_MS, DEFAULT_REPEAT_LONG_PRESS]
  have e4 : pinTick
      ({ dpPin minP maxP maxI with
          lastDebounceTime := r1 - 51, lastState := PIN_HIGH, currentState := PIN_LOW,
          pressStartTime := p1, clickCount := 1 }) PIN_HIGH r1 =
      ({ dpPin minP maxP maxI with
          lastDebounceTime := r1 - 51, lastState := PIN_HIGH, currentState := PIN_HIGH,
          pressStartTime := 0, clickCount := 1, lastClickTime := r1 }, noOut) := by
    simp [pinTick, debouncePhase, detectButtonGestures, longPressCheck, clickCheck,
          timeoutCheck, s2, s5, op1, h3, h4, dpPin, mkNewPin, sub32_self, noOut, outApp,
          DEFAULT_DEBOUNCE_TIME, DEFAULT_MIN_PRESS_MS, DEFAULT_MAX_PRESS_MS,
          DEFAULT_MAX_INTERVAL_MS, DEFAULT_PRESS_DURATION_MS, DEFAULT_REPEAT_LONG_PRESS]
  have e5 : pinTick
      ({ dpPin minP maxP maxI with
          lastDebounceTime := r1 - 51, lastState := PIN_HIGH, currentState := PIN_HIGH,
          pressStartTime := 0, clickCount := 1, lastClickTime := r1 }) PIN_LOW (p2 - 51) =
      ({ dpPin minP maxP maxI with
          lastDebounceTime := p2 - 51, lastState := PIN_LOW, currentState := PIN_HIGH,
          pressStartTime := 0, clickCount := 1, lastClickTime := r1 }, noOut) := by
    simp [pinTick, debouncePhase, detectButtonGestures, longPressCheck, clickCheck,
          timeoutCheck, s8, n5, dpPin, mkNewPin, sub32_self, noOut, outApp,
          DEFAULT_DEBOUNCE_TIME, DEFAULT_MIN_PRESS_MS, DEFAULT_MAX_PRESS_MS,
          DEFAULT_MAX_INTERVAL_MS, DEFAULT_PRESS_DURATION_MS, DEFAULT_REPEAT_LONG_PRESS]
  have e6 : pinTick
      ({ dpPin minP maxP maxI with
          lastDebounceTime := p2 - 51, lastState := PIN_LOW, currentState := PIN_HIGH,
          pressStartTime := 0, clickCount := 1, lastClickTime := r1 }) PIN_LOW p2 =
      ({ dpPin minP maxP maxI with
          lastDebounceTime := p2 - 51, lastState := PIN_LOW, currentState := PIN_LOW,
          pressStartTime := p2, clickCount := 2, lastClickTime := r1 }, noOut) := by
    simp [pinTick, debouncePhase, detectButtonGestures, longPressCheck, clickCheck,
          timeoutCheck, s3, dpPin, mkNewPin, sub32_self, noOut, outApp,
          DEFAULT_DEBOUNCE_TIME, DEFAULT_MIN_PRESS_MS, DEFAULT_MAX_PRESS_MS,
          DEFAULT_MAX_INTERVAL_MS, DEFAULT_PRESS_DURATION_MS, DEFAULT_REPEAT_LONG_PRESS]
  have e7 : pinTick
      ({ dpPin minP maxP maxI with
          lastDebounceTime := p2 - 51, lastState := PIN_LOW, currentState := PIN_LOW,
          pressStartTime := p2, clickCount := 2, lastClickTime := r1 }) PIN_HIGH (r2 - 51) =
      ({ dpPin minP maxP maxI with
          lastDebounceTime := r2 - 51, lastState := PIN_HIGH, currentState := PIN_LOW,
          pressStartTime := p2, clickCount := 2, lastClickTime := r1 }, noOut) := by
    simp [pinTick, debouncePhase, detectButtonGestures, longPressCheck, clickCheck,
          timeoutCheck, dpPin, mkNewPin, sub32_self, noOut, outApp,
          DEFAULT_DEBOUNCE_TIME, DEFAULT_MIN_PRESS_MS, DEFAULT_MAX_PRESS_MS,
          DEFAULT_MAX_INTERVAL_MS, DEFAULT_PRESS_DURATION_MS, DEFAULT_REPEAT_LONG_PRESS]
  have e8 : pinTick
      ({ dpPin minP maxP maxI with
          lastDebounceTime := r2 - 51, lastState := PIN_HIGH, currentState := PIN_LOW,
          pressStartTime := p2, clickCount := 2, lastClickTime := r1 }) PIN_HIGH r2 =
      ({ dpPin minP maxP maxI with
          lastDebounceTime := r2 - 51, lastState := PIN_HIGH, currentState := PIN_HIGH,
          pressStartTime := 0, clickCount := 0, lastClickTime := r2 },
       ([], [⟨2, 3, PIN_HIGH, PIN_HIGH, EVENT_DOUBLE_PRESS, r2⟩])) := by
    simp [pinTick, debouncePhase, detectButtonGestures, longPressCheck, clickCheck,
          timeoutCheck, triggerCallback, s4, s6, s7, op2, h7, h8, c7, dpPin, mkNewPin, sub32_self, noOut, outApp,
          DEFAULT_DEBOUNCE_TIME, DEFAULT_MIN_PRESS_MS, DEFAULT_MAX_PRESS_MS,
          DEFAULT_MAX_INTERVAL_MS, DEFAULT_PRESS_DURATION_MS, DEFAULT_REPEAT_LONG_PRESS]
  rw [dpTrace]
  simp only [runPin, e1, e2, e3, e4, e5, e6, e7, e8]
  simp [outApp, noOut]

/-- Witness for C1: presses accepted at 100-200 and 300-400 (durations 100,
release gap 200 ≤ 300) yield exactly the one `DOUBLE_PRESS` at 400. -/
theorem C1_witness :
    (runPin (dpPin 50 300 300) (dpTrace 100 200 300 400)).2 =
      ([], [⟨2, 3, PIN_HIGH, PIN_HIGH, EVENT_DOUBLE_PRESS, 400⟩]) :=
  C1_double_press 50 300 300 100 200 300 400 (by decide) (by decide) (by decide)
    (by decide) (by decide) (by decide) (by decide) (by decide) (by decide) (by decide)

end AvantDigitalRead
